import Mathlib

/-!
# streamhub: message envelope model and publish pipeline

A shallow embedding of `message.go` and `hub.go` of NeutrinoCorp/streamhub.

Modelling conventions:

* a Go `string` is a Lean `String`; `strings.HasPrefix`, string concatenation and the comparison
  with `""` act on the characters one by one, exactly as the Go versions act on bytes;
* a Go `int` is an `Int`, `[]byte` is `List UInt8`, `time.Duration` is an `Int` (nanoseconds);
* a Go `error` result is `Option Error` (`none` is `nil`), a `(T, error)` result is
  `Except Error T`;
* an `interface{}` message value is a `GoValue`, a dynamic type with contents; a nil
  `interface{}` field is `none`;
* collaborators reached through interfaces or function values (Marshaler, SchemaRegistry,
  ID factory, Writer) may have effects: they are state transformers over a world state `σ`.
-/

namespace Streamhub

/-! ## Go standard library functions used by the source -/

/-- Go `strings.HasPrefix(s, prefix)`:
`len(s) >= len(prefix) && s[0:len(prefix)] == prefix`. -/
def stringsHasPrefix (s pre : String) : Bool :=
  decide (s.data.length ≥ pre.data.length) && decide (s.data.take pre.data.length = pre.data)

/-- Go `strconv.Itoa(i)`: the base-10 rendering of `i`, with a leading `-` for negatives. -/
def strconvItoa (i : Int) : String :=
  match i with
  | Int.ofNat n => String.mk (Nat.toDigits 10 n)
  | Int.negSucc n => "-" ++ String.mk (Nat.toDigits 10 (n + 1))

/-! ## message.go -/

/-- Go constant `CloudEventsSpecVersion`. -/
def CloudEventsSpecVersion : String := "1.0"

/-- Go struct `Message`. `DecodedData interface{}` is `none` when nil. -/
structure Message (V : Type) where
  ID : String
  Stream : String
  Source : String
  SpecVersion : String
  /-- Go field `Type` (a reserved word here). -/
  Type_ : String
  Data : List UInt8
  DataContentType : String
  DataSchema : String
  DataSchemaVersion : Int
  Timestamp : String
  Subject : String
  CorrelationID : String
  CausationID : String
  DecodedData : Option V
  GroupName : String
  deriving DecidableEq, Repr

/-- Go struct `NewMessageArgs`. -/
structure NewMessageArgs where
  SchemaVersion : Int
  Data : List UInt8
  ID : String
  Source : String
  Stream : String
  SchemaDefinitionName : String
  ContentType : String
  GroupName : String
  Subject : String
  deriving DecidableEq, Repr

/-- Go `generateMessageType(source, stream, version string) string`; `buff` is the
`strings.Builder`. -/
def generateMessageType (source stream version : String) : String :=
  let buff := ""
  let buff :=
    if source ≠ "" ∧ ¬ stringsHasPrefix stream source = true then (buff ++ source) ++ "."
    else buff
  let buff := buff ++ stream
  let buff := if version ≠ "" then (buff ++ ".v") ++ version else buff
  buff

/-- Go `NewMessage(args NewMessageArgs) Message`. `now` is the value of
`time.Now().UTC().Format(time.RFC3339)` at the call; the fields the composite literal does not
name (`CorrelationID`, `CausationID`, `DecodedData`) take their zero values. -/
def NewMessage {V : Type} (now : String) (args : NewMessageArgs) : Message V :=
  let strSchemaVersion := strconvItoa args.SchemaVersion
  { ID := args.ID
    Stream := args.Stream
    Source := args.Source
    SpecVersion := CloudEventsSpecVersion
    Type_ := generateMessageType args.Source args.Stream strSchemaVersion
    Data := args.Data
    DataContentType := args.ContentType
    DataSchema := args.SchemaDefinitionName
    DataSchemaVersion := args.SchemaVersion
    Timestamp := now
    Subject := args.Subject
    CorrelationID := ""
    CausationID := ""
    DecodedData := none
    GroupName := args.GroupName }

/-! ## Declarations used by hub.go whose source files are not among the available sources -/

/-- Go `error` values; an error is identified by its message. -/
structure Error where
  msg : String
  deriving DecidableEq, Repr

/-- A Go `interface{}` message value: its dynamic type, which is the message's identity in the
stream registry, and its contents. -/
structure GoValue (ι D : Type) where
  dynType : ι
  val : D
  deriving DecidableEq, Repr

/-- Modelled from the spec: the `StreamMetadata` record, whose declaration is not among the
available sources, "{streamName: string, schemaDefinitionName: string, schemaVersion: int}".
hub.go reads the fields `Stream`, `SchemaDefinition` and `SchemaVersion`; the benchmark writes
the middle one as `SchemaDefinitionName`, the name `NewMessageArgs` uses too. -/
structure StreamMetadata where
  Stream : String
  SchemaDefinitionName : String
  SchemaVersion : Int
  deriving DecidableEq, Repr

/-- Modelled from the spec: the Stream Registry (its source file is not available), "a flat
key→value mapping" from "a message's identity (or an explicit string key) to stream metadata". -/
structure StreamRegistry (ι : Type) where
  byIdentity : ι → Option StreamMetadata
  byString : String → Option StreamMetadata

/-- Modelled from the spec: `RegistryMissError`, the error of a lookup when "no entry exists". -/
def RegistryMissError : Error := ⟨"RegistryMissError"⟩

/-- Modelled from the spec: Go `StreamRegistry{}`, the registry without entries. -/
def StreamRegistry.empty {ι : Type} : StreamRegistry ι :=
  { byIdentity := fun _ => none, byString := fun _ => none }

/-- Modelled from the spec: `set(identity, metadata)`; "re-registration overwrites". -/
def StreamRegistry.Set {ι D : Type} [DecidableEq ι] (r : StreamRegistry ι)
    (message : GoValue ι D) (metadata : StreamMetadata) : StreamRegistry ι :=
  { r with byIdentity := fun k => if k = message.dynType then some metadata else r.byIdentity k }

/-- Modelled from the spec: `setByString(key, metadata)`. -/
def StreamRegistry.SetByString {ι : Type} (r : StreamRegistry ι) (key : String)
    (metadata : StreamMetadata) : StreamRegistry ι :=
  { r with byString := fun k => if k = key then some metadata else r.byString k }

/-- Modelled from the spec: `get(identity) -> metadata | NotFound`; "lookups fail with
`RegistryMissError` when no entry exists". -/
def StreamRegistry.Get {ι D : Type} (r : StreamRegistry ι) (message : GoValue ι D) :
    Except Error StreamMetadata :=
  match r.byIdentity message.dynType with
  | some metadata => .ok metadata
  | none => .error RegistryMissError

/-- Modelled from the spec: `getByString(key) -> metadata | NotFound`. -/
def StreamRegistry.GetByString {ι : Type} (r : StreamRegistry ι) (key : String) :
    Except Error StreamMetadata :=
  match r.byString key with
  | some metadata => .ok metadata
  | none => .error RegistryMissError

/-- Modelled from the spec: the `Marshaler` interface, declared in a source file that is not
available; the two methods hub.go calls, "marshal(schemaText, value) -> bytes | MarshalError" and
"contentType() -> string". An implementation may have effects on the world state. -/
structure Marshaler (σ V : Type) where
  Marshal : String → V → σ → Except Error (List UInt8) × σ
  ContentType : σ → String × σ

/-- Modelled from the spec: the `SchemaRegistry` interface, declared in a source file that is not
available; the method hub.go calls,
"getSchemaDefinition(name, version) -> schemaText | SchemaNotFoundError". -/
structure SchemaRegistry (σ : Type) where
  GetSchemaDefinition : String → Int → σ → Except Error String × σ

/-- Modelled from the spec: the function type `PublisherFunc` of the Writer, declared in a source
file that is not available, "write(ctx, envelope) -> error". -/
abbrev PublisherFunc (Ctx σ V : Type) := Ctx → Message V → σ → Option Error × σ

/-- Modelled from the spec: the function type `IDFactoryFunc`, declared in a source file that is
not available, "ID-factory.generate() -> (string, error)". -/
abbrev IDFactoryFunc (σ : Type) := σ → Except Error String × σ

/-! ## hub.go -/

/-- Go constant `DefaultHubInstanceName`. -/
def DefaultHubInstanceName : String := "com.streamhub"

/-- Go struct `Hub`. The `SchemaRegistry` interface field is `none` when nil, the case
`publishMessage` tests for. -/
structure Hub (Ctx σ ι D : Type) where
  StreamRegistry : StreamRegistry ι
  InstanceName : String
  PublisherFunc : PublisherFunc Ctx σ (GoValue ι D)
  Marshaler : Marshaler σ (GoValue ι D)
  IDFactory : IDFactoryFunc σ
  SchemaRegistry : Option (SchemaRegistry σ)

/-- Go struct `hubOptions`, declared in a source file that is not available: the fields `NewHub`
and `newHubDefaults` name. -/
structure hubOptions (Ctx σ ι D : Type) where
  instanceName : String
  publisherFunc : PublisherFunc Ctx σ (GoValue ι D)
  marshaler : Marshaler σ (GoValue ι D)
  idFactory : IDFactoryFunc σ
  schemaRegistry : Option (SchemaRegistry σ)

/-- Go interface `HubOption`, declared in a source file that is not available: its method
`apply(*hubOptions)`, called by `NewHub`, as the update it performs. -/
abbrev HubOption (Ctx σ ι D : Type) := hubOptions Ctx σ ι D → hubOptions Ctx σ ι D

/-- Modelled from the spec: the package-level values `newHubDefaults` refers to, declared in
source files that are not available: `NoopPublisher` ("a no-op publisher"), `JSONMarshaler{}`
("Marshaler (defaults to JSON)") and `UuidIdFactory` ("a UUID generator"). They are parameters
of the model. -/
structure Builtins (Ctx σ ι D : Type) where
  NoopPublisher : PublisherFunc Ctx σ (GoValue ι D)
  JSONMarshaler : Marshaler σ (GoValue ι D)
  UuidIdFactory : IDFactoryFunc σ

/-- Go `newHubDefaults() hubOptions`; the `schemaRegistry` field is not named, hence nil. -/
def newHubDefaults {Ctx σ ι D : Type} (b : Builtins Ctx σ ι D) : hubOptions Ctx σ ι D :=
  { instanceName := DefaultHubInstanceName
    publisherFunc := b.NoopPublisher
    marshaler := b.JSONMarshaler
    idFactory := b.UuidIdFactory
    schemaRegistry := none }

/-- Go `NewHub(opts ...HubOption) *Hub`. -/
def NewHub {Ctx σ ι D : Type} (b : Builtins Ctx σ ι D) (opts : List (HubOption Ctx σ ι D)) :
    Hub Ctx σ ι D :=
  let baseOpts := opts.foldl (fun baseOpts o => o baseOpts) (newHubDefaults b)
  { StreamRegistry := StreamRegistry.empty
    InstanceName := baseOpts.instanceName
    Marshaler := baseOpts.marshaler
    PublisherFunc := baseOpts.publisherFunc
    IDFactory := baseOpts.idFactory
    SchemaRegistry := baseOpts.schemaRegistry }

/-- Go `(h *Hub) RegisterStream(message interface{}, metadata StreamMetadata)`. -/
def Hub.RegisterStream {Ctx σ ι D : Type} [DecidableEq ι] (h : Hub Ctx σ ι D)
    (message : GoValue ι D) (metadata : StreamMetadata) : Hub Ctx σ ι D :=
  { h with StreamRegistry := h.StreamRegistry.Set message metadata }

/-- Go `(h *Hub) RegisterStreamByString(messageType string, metadata StreamMetadata)`. -/
def Hub.RegisterStreamByString {Ctx σ ι D : Type} (h : Hub Ctx σ ι D)
    (messageType : String) (metadata : StreamMetadata) : Hub Ctx σ ι D :=
  { h with StreamRegistry := h.StreamRegistry.SetByString messageType metadata }

/-- The `NewMessageArgs{...}` composite literal in `publishMessage`; the fields it does not name
(`GroupName`, `Subject`) are zero values. -/
def Hub.messageArgs {Ctx σ ι D : Type} (h : Hub Ctx σ ι D) (metadata : StreamMetadata)
    (data : List UInt8) (id contentType : String) : NewMessageArgs :=
  { SchemaVersion := metadata.SchemaVersion
    Data := data
    ID := id
    Source := h.InstanceName
    Stream := metadata.Stream
    SchemaDefinitionName := metadata.SchemaDefinitionName
    ContentType := contentType
    GroupName := ""
    Subject := "" }

/-- Go `(h *Hub) publishMessage(ctx, metadata, message) error`. `clock` reads the formatted
current time off the world state, for the `time.Now()` inside `NewMessage`; `w` is the world
state, rebound after every collaborator call. -/
def Hub.publishMessage {Ctx σ ι D : Type} (clock : σ → String) (h : Hub Ctx σ ι D)
    (ctx : Ctx) (metadata : StreamMetadata) (message : GoValue ι D) (w : σ) :
    Option Error × σ :=
  match (match h.SchemaRegistry with
      | some registry =>
        registry.GetSchemaDefinition metadata.SchemaDefinitionName metadata.SchemaVersion w
      | none => (Except.ok "", w)) with
  | (.error err, w) => (some err, w)
  | (.ok schemaDef, w) =>
    match h.Marshaler.Marshal schemaDef message w with
    | (.error err, w) => (some err, w)
    | (.ok data, w) =>
      match h.IDFactory w with
      | (.error err, w) => (some err, w)
      | (.ok id, w) =>
        match h.Marshaler.ContentType w with
        | (contentType, w) =>
          h.PublisherFunc ctx
            (NewMessage (clock w) (h.messageArgs metadata data id contentType)) w

/-- Go `(h *Hub) Publish(ctx, message interface{}) error`. -/
def Hub.Publish {Ctx σ ι D : Type} (clock : σ → String) (h : Hub Ctx σ ι D) (ctx : Ctx)
    (message : GoValue ι D) (w : σ) : Option Error × σ :=
  match h.StreamRegistry.Get message with
  | .error err => (some err, w)
  | .ok metadata => h.publishMessage clock ctx metadata message w

/-- Go `(h *Hub) PublishByMessageKey(ctx, messageKey string, message interface{}) error`. -/
def Hub.PublishByMessageKey {Ctx σ ι D : Type} (clock : σ → String) (h : Hub Ctx σ ι D)
    (ctx : Ctx) (messageKey : String) (message : GoValue ι D) (w : σ) : Option Error × σ :=
  match h.StreamRegistry.GetByString messageKey with
  | .error err => (some err, w)
  | .ok metadata => h.publishMessage clock ctx metadata message w

/-- Go `(h *Hub) PublishRawMessage(ctx, message Message) error`. -/
def Hub.PublishRawMessage {Ctx σ ι D : Type} (h : Hub Ctx σ ι D) (ctx : Ctx)
    (message : Message (GoValue ι D)) (w : σ) : Option Error × σ :=
  h.PublisherFunc ctx message w

/-! ## Recording collaborator invocations

To state which collaborators a publish operation invokes, and with what, every collaborator of a
hub is wrapped so that it appends a record of the invocation to a log kept next to the world
state, the way a test double records its calls. The wrapped hub runs the same code. -/

/-- One invocation of a collaborator of a hub, with its arguments. -/
inductive Call (Ctx V : Type) where
  | getSchemaDefinition (name : String) (version : Int)
  | marshal (schemaDef : String) (message : V)
  | contentType
  | idFactory
  | publisherFunc (ctx : Ctx) (message : Message V)
  deriving DecidableEq, Repr

/-- World state together with the log of invocations, oldest first. -/
abbrev Traced (Ctx σ V : Type) := σ × List (Call Ctx V)

/-- The hub `h` with every collaborator recording its invocation after running. -/
def Hub.traced {Ctx σ ι D : Type} (h : Hub Ctx σ ι D) :
    Hub Ctx (Traced Ctx σ (GoValue ι D)) ι D :=
  { StreamRegistry := h.StreamRegistry
    InstanceName := h.InstanceName
    PublisherFunc := fun ctx message w =>
      ((h.PublisherFunc ctx message w.1).1,
        ((h.PublisherFunc ctx message w.1).2, w.2 ++ [Call.publisherFunc ctx message]))
    Marshaler :=
      { Marshal := fun schemaDef message w =>
          ((h.Marshaler.Marshal schemaDef message w.1).1,
            ((h.Marshaler.Marshal schemaDef message w.1).2,
              w.2 ++ [Call.marshal schemaDef message]))
        ContentType := fun w =>
          ((h.Marshaler.ContentType w.1).1,
            ((h.Marshaler.ContentType w.1).2, w.2 ++ [Call.contentType])) }
    IDFactory := fun w => ((h.IDFactory w.1).1, ((h.IDFactory w.1).2, w.2 ++ [Call.idFactory]))
    SchemaRegistry := h.SchemaRegistry.map fun registry =>
      { GetSchemaDefinition := fun name version w =>
          ((registry.GetSchemaDefinition name version w.1).1,
            ((registry.GetSchemaDefinition name version w.1).2,
              w.2 ++ [Call.getSchemaDefinition name version])) } }

/-- The clock of the traced world: the log does not affect the time. -/
def tracedClock {Ctx σ V : Type} (clock : σ → String) : Traced Ctx σ V → String :=
  fun w => clock w.1

/-- The invocations of the Writer (`PublisherFunc`) recorded in a log, in order. -/
def writerCalls {Ctx V : Type} : List (Call Ctx V) → List (Ctx × Message V)
  | [] => []
  | Call.publisherFunc ctx message :: rest => (ctx, message) :: writerCalls rest
  | _ :: rest => writerCalls rest

/-- The schema lookup step of `publishMessage` on its own: the lookup in the configured
SchemaRegistry, or the empty schema text, with the state untouched, when none is configured. -/
def Hub.schemaStep {Ctx σ ι D : Type} (h : Hub Ctx σ ι D) (metadata : StreamMetadata) (w : σ) :
    Except Error String × σ :=
  match h.SchemaRegistry with
  | some registry =>
    registry.GetSchemaDefinition metadata.SchemaDefinitionName metadata.SchemaVersion w
  | none => (Except.ok "", w)

/-- The invocations the schema lookup step records: one when a SchemaRegistry is configured. -/
def Hub.schemaCalls {Ctx σ ι D : Type} (h : Hub Ctx σ ι D) (metadata : StreamMetadata) :
    List (Call Ctx (GoValue ι D)) :=
  match h.SchemaRegistry with
  | some _ => [Call.getSchemaDefinition metadata.SchemaDefinitionName metadata.SchemaVersion]
  | none => []

/-- The envelope `publishMessage` hands to the Writer when the ID factory returned `id` and left
the world in state `s3`: `ContentType()` is called next, then `NewMessage` reads the clock. -/
def Hub.sentEnvelope {Ctx σ ι D : Type} (h : Hub Ctx σ ι D) (clock : σ → String)
    (metadata : StreamMetadata) (data : List UInt8) (id : String) (s3 : σ) :
    Message (GoValue ι D) :=
  NewMessage (clock (h.Marshaler.ContentType s3).2)
    (h.messageArgs metadata data id (h.Marshaler.ContentType s3).1)

/-! ## The listener supervisor

Its source file is not available; `listener_supervisor_test.go` shows the signatures
`newListenerSupervisor(h, opts...)`, `forkNode(stream, opts...)`, the field `listenerRegistry`
and the node fields it asserts on. -/

/-- Modelled from the spec: the documented default constants of a node, "concurrency level, retry
initial interval, retry max interval, retry timeout, group name"; the test names the first four
`DefaultConcurrencyLevel`, `DefaultRetryInitialInterval`, `DefaultRetryMaxInterval` and
`DefaultRetryTimeout`. Their values are declared in the unavailable source file, so they are
parameters of the model. Durations are nanoseconds. -/
structure ListenerDefaults where
  DefaultConcurrencyLevel : Int
  DefaultRetryInitialInterval : Int
  DefaultRetryMaxInterval : Int
  DefaultRetryTimeout : Int
  DefaultGroup : String
  deriving DecidableEq, Repr

/-- Modelled from the spec: the configuration of one node, "group (string), concurrency level,
retry initial interval / max interval / timeout (durations), driver (ListenerDriver), listener
function (handler)". A driver or handler that was never given is `none`. -/
structure listenerNodeOptions (Drv Fn : Type) where
  group : String
  concurrencyLevel : Int
  retryInitialInterval : Int
  retryMaxInterval : Int
  retryTimeout : Int
  driver : Option Drv
  listenerFunc : Option Fn
  deriving DecidableEq, Repr

/-- Modelled from the spec: a node option, one of the "pure transformation functions, applied in
order" to a configuration value. -/
abbrev ListenerNodeOption (Drv Fn : Type) :=
  listenerNodeOptions Drv Fn → listenerNodeOptions Drv Fn

/-- Modelled from the spec: the option setting the group. -/
def WithGroup {Drv Fn : Type} (g : String) : ListenerNodeOption Drv Fn :=
  fun o => { o with group := g }

/-- Modelled from the spec: the option setting the concurrency level. -/
def WithConcurrencyLevel {Drv Fn : Type} (n : Int) : ListenerNodeOption Drv Fn :=
  fun o => { o with concurrencyLevel := n }

/-- Modelled from the spec: the option setting the retry initial interval. -/
def WithRetryInitialInterval {Drv Fn : Type} (d : Int) : ListenerNodeOption Drv Fn :=
  fun o => { o with retryInitialInterval := d }

/-- Modelled from the spec: the option setting the retry max interval. -/
def WithRetryMaxInterval {Drv Fn : Type} (d : Int) : ListenerNodeOption Drv Fn :=
  fun o => { o with retryMaxInterval := d }

/-- Modelled from the spec: the option setting the retry timeout. -/
def WithRetryTimeout {Drv Fn : Type} (d : Int) : ListenerNodeOption Drv Fn :=
  fun o => { o with retryTimeout := d }

/-- Modelled from the spec: the option setting the driver. -/
def WithDriver {Drv Fn : Type} (d : Drv) : ListenerNodeOption Drv Fn :=
  fun o => { o with driver := some d }

/-- Modelled from the spec: the option setting the listener function. -/
def WithListenerFunc {Drv Fn : Type} (f : Fn) : ListenerNodeOption Drv Fn :=
  fun o => { o with listenerFunc := some f }

/-- Modelled from the spec: the `ListenerNode` record, "{stream, group, concurrencyLevel,
retryInitialInterval, retryMaxInterval, retryTimeout, driver, handler}", with the field names
the test reads. -/
structure ListenerNode (Drv Fn : Type) where
  Stream : String
  Group : String
  ConcurrencyLevel : Int
  RetryInitialInterval : Int
  RetryMaxInterval : Int
  RetryTimeout : Int
  Driver : Option Drv
  ListenerFunc : Option Fn
  deriving DecidableEq, Repr

/-- Modelled from the spec: the listener supervisor, which "owns a registry of listener nodes"
and the supervisor-level configuration new nodes start from. -/
structure listenerSupervisor (H Drv Fn : Type) where
  parentHub : H
  listenerRegistry : List (ListenerNode Drv Fn)
  baseOpts : listenerNodeOptions Drv Fn

/-- Modelled from the spec: the configuration "a node created without explicit options" gets,
the documented constants, with no driver and no handler. -/
def newListenerNodeDefaults {Drv Fn : Type} (c : ListenerDefaults) : listenerNodeOptions Drv Fn :=
  { group := c.DefaultGroup
    concurrencyLevel := c.DefaultConcurrencyLevel
    retryInitialInterval := c.DefaultRetryInitialInterval
    retryMaxInterval := c.DefaultRetryMaxInterval
    retryTimeout := c.DefaultRetryTimeout
    driver := none
    listenerFunc := none }

/-- Modelled from the spec: `newListenerSupervisor(h, opts...)`, an empty node registry and the
defaults "overridable ... at supervisor construction" by `opts`, applied in order. -/
def newListenerSupervisor {H Drv Fn : Type} (c : ListenerDefaults) (h : H)
    (opts : List (ListenerNodeOption Drv Fn)) : listenerSupervisor H Drv Fn :=
  { parentHub := h
    listenerRegistry := []
    baseOpts := opts.foldl (fun baseOpts o => o baseOpts) (newListenerNodeDefaults c) }

/-- Modelled from the spec: the node composed from a stream key and a finished configuration. -/
def newListenerNode {Drv Fn : Type} (stream : String) (nodeOpts : listenerNodeOptions Drv Fn) :
    ListenerNode Drv Fn :=
  { Stream := stream
    Group := nodeOpts.group
    ConcurrencyLevel := nodeOpts.concurrencyLevel
    RetryInitialInterval := nodeOpts.retryInitialInterval
    RetryMaxInterval := nodeOpts.retryMaxInterval
    RetryTimeout := nodeOpts.retryTimeout
    Driver := nodeOpts.driver
    ListenerFunc := nodeOpts.listenerFunc }

/-- Modelled from the spec: `forkNode(streamKey, opts...)`, "no-op (registry unchanged) if
`streamKey` is empty", otherwise it "composes a new node by applying supervisor-level defaults
... first, then per-call option overrides, and appends it to the node registry". -/
def listenerSupervisor.forkNode {H Drv Fn : Type} (sv : listenerSupervisor H Drv Fn)
    (stream : String) (opts : List (ListenerNodeOption Drv Fn)) : listenerSupervisor H Drv Fn :=
  if stream = "" then sv
  else
    let nodeOpts := opts.foldl (fun nodeOpts o => o nodeOpts) sv.baseOpts
    { sv with listenerRegistry := sv.listenerRegistry ++ [newListenerNode stream nodeOpts] }

/-- Sample values for the default constants: one worker, 3 s, 15 s and 60 s in nanoseconds. -/
def sampleDefaults : ListenerDefaults :=
  { DefaultConcurrencyLevel := 1
    DefaultRetryInitialInterval := 3000000000
    DefaultRetryMaxInterval := 15000000000
    DefaultRetryTimeout := 60000000000
    DefaultGroup := "" }

/-- The supervisor of `TestListenerSupervisor_Append`, built with `WithGroup("bar-queue")`; the
test's `&Hub{}` plays no part and stands as `()`. -/
def testSupervisor : listenerSupervisor Unit Unit Unit :=
  newListenerSupervisor sampleDefaults () [WithGroup "bar-queue"]

/-! ## Sample collaborators, for evaluating the pipeline on concrete inputs

The world state is a counter of the IDs handed out so far. -/

/-- A Writer that accepts every envelope. -/
def sampleWriter : PublisherFunc Unit Nat (GoValue String String) :=
  fun _ _ w => (none, w)

/-- A Marshaler that encodes every value as the two bytes of an empty JSON object. -/
def sampleMarshaler : Marshaler Nat (GoValue String String) :=
  { Marshal := fun _ _ w => (Except.ok [123, 125], w)
    ContentType := fun w => ("application/json", w) }

/-- A Marshaler that rejects every value. -/
def failingMarshaler : Marshaler Nat (GoValue String String) :=
  { Marshal := fun _ _ w => (Except.error ⟨"marshal failed"⟩, w)
    ContentType := fun w => ("application/json", w) }

/-- An ID factory that numbers the IDs. -/
def sampleIdFactory : IDFactoryFunc Nat :=
  fun w => (Except.ok ("id-" ++ strconvItoa w), w + 1)

/-- An ID factory that fails. -/
def failingIdFactory : IDFactoryFunc Nat :=
  fun w => (Except.error ⟨"no id"⟩, w)

/-- A SchemaRegistry holding version 1 of the benchmark's `wallet-tx-registered` definition. -/
def sampleSchemaRegistry : SchemaRegistry Nat :=
  { GetSchemaDefinition := fun name version w =>
      if name = "wallet-tx-registered" ∧ version = 1 then (Except.ok "record", w)
      else (Except.error ⟨"schema not found"⟩, w) }

/-- The built-in collaborators handed to `newHubDefaults`. -/
def sampleBuiltins : Builtins Unit Nat String String :=
  { NoopPublisher := sampleWriter
    JSONMarshaler := sampleMarshaler
    UuidIdFactory := sampleIdFactory }

/-- A clock that stands still. -/
def sampleClock : Nat → String := fun _ => "2021-10-05T00:00:00Z"

/-- Modelled from the spec: the Hub option "SchemaRegistry (optional, defaults to none)", the
benchmark's `WithSchemaRegistry`. -/
def WithSchemaRegistry {Ctx σ ι D : Type} (r : SchemaRegistry σ) : HubOption Ctx σ ι D :=
  fun o => { o with schemaRegistry := some r }

/-- Modelled from the spec: the Hub option "Marshaler (defaults to JSON)", the benchmark's
`WithMarshaler`. -/
def WithMarshaler {Ctx σ ι D : Type} (m : Marshaler σ (GoValue ι D)) : HubOption Ctx σ ι D :=
  fun o => { o with marshaler := m }

/-- Modelled from the spec: the Hub option "Writer (defaults to a no-op publisher)", the
benchmark's `WithWriter`. -/
def WithWriter {Ctx σ ι D : Type} (p : PublisherFunc Ctx σ (GoValue ι D)) :
    HubOption Ctx σ ι D :=
  fun o => { o with publisherFunc := p }

/-- Modelled from the spec: the Hub option "ID factory (defaults to a UUID generator)". -/
def WithIDFactory {Ctx σ ι D : Type} (f : IDFactoryFunc σ) : HubOption Ctx σ ι D :=
  fun o => { o with idFactory := f }

/-- The benchmark's `transactionRegistered{}`, the value `registerStream` registers. -/
def transactionRegisteredZero : GoValue String String :=
  { dynType := "main.transactionRegistered", val := "" }

/-- The benchmark's `transactionRegistered{TxID: "1", Amount: 99.99}`. -/
def transactionRegistered : GoValue String String :=
  { dynType := "main.transactionRegistered", val := "1 99.99" }

/-- The metadata the benchmark's `registerStream` registers. -/
def walletMetadata : StreamMetadata :=
  { Stream := "ncorp.wallet.tx.registered"
    SchemaDefinitionName := "wallet-tx-registered"
    SchemaVersion := 1 }

/-- The benchmark's hub: `NewHub` with a SchemaRegistry, a Marshaler and a Writer, the instance
name left alone, after `registerStream`. -/
def benchmarkHub : Hub Unit Nat String String :=
  (NewHub sampleBuiltins
    [WithSchemaRegistry sampleSchemaRegistry, WithMarshaler sampleMarshaler,
      WithWriter sampleWriter]).RegisterStream transactionRegisteredZero walletMetadata

section PipelineLemmas

variable {Ctx σ ι D : Type}

theorem writerCalls_append (a b : List (Call Ctx (GoValue ι D))) :
    writerCalls (a ++ b) = writerCalls a ++ writerCalls b := by
  induction a with
  | nil => rfl
  | cons c rest ih => cases c <;> simp [writerCalls, ih]

theorem writerCalls_schemaCalls (h : Hub Ctx σ ι D) (metadata : StreamMetadata) :
    writerCalls (h.schemaCalls metadata) = [] := by
  unfold Hub.schemaCalls
  cases h.SchemaRegistry <;> rfl

/-- The run of `publishMessage` on the recording hub, step by step. -/
theorem traced_publishMessage (clock : σ → String) (h : Hub Ctx σ ι D) (ctx : Ctx)
    (metadata : StreamMetadata) (message : GoValue ι D) (s : σ)
    (log : List (Call Ctx (GoValue ι D))) :
    h.traced.publishMessage (tracedClock clock) ctx metadata message (s, log) =
      match h.schemaStep metadata s with
      | (.error err, s1) => (some err, (s1, log ++ h.schemaCalls metadata))
      | (.ok schemaDef, s1) =>
        match h.Marshaler.Marshal schemaDef message s1 with
        | (.error err, s2) =>
          (some err, (s2, log ++ h.schemaCalls metadata ++ [Call.marshal schemaDef message]))
        | (.ok data, s2) =>
          match h.IDFactory s2 with
          | (.error err, s3) =>
            (some err, (s3, log ++ h.schemaCalls metadata
              ++ [Call.marshal schemaDef message, Call.idFactory]))
          | (.ok id, s3) =>
            ((h.PublisherFunc ctx (h.sentEnvelope clock metadata data id s3)
                (h.Marshaler.ContentType s3).2).1,
              ((h.PublisherFunc ctx (h.sentEnvelope clock metadata data id s3)
                (h.Marshaler.ContentType s3).2).2,
                log ++ h.schemaCalls metadata
                  ++ [Call.marshal schemaDef message, Call.idFactory, Call.contentType,
                    Call.publisherFunc ctx (h.sentEnvelope clock metadata data id s3)])) := by
  unfold Hub.publishMessage Hub.schemaStep Hub.schemaCalls
  cases hsr : h.SchemaRegistry with
  | none =>
    simp only [Hub.traced, hsr, Option.map_none', tracedClock, List.append_nil]
    rcases hm : h.Marshaler.Marshal "" message s with ⟨_ | data, s2⟩
    · simp [hm]
    · rcases hi : h.IDFactory s2 with ⟨_ | id, s3⟩ <;>
        simp [hm, hi, Hub.sentEnvelope, Hub.messageArgs]
  | some registry =>
    simp only [Hub.traced, hsr, Option.map_some', tracedClock]
    rcases hg : registry.GetSchemaDefinition metadata.SchemaDefinitionName
      metadata.SchemaVersion s with ⟨_ | schemaDef, s1⟩
    · simp [hg]
    · rcases hm : h.Marshaler.Marshal schemaDef message s1 with ⟨_ | data, s2⟩
      · simp [hg, hm]
      · rcases hi : h.IDFactory s2 with ⟨_ | id, s3⟩ <;>
        simp [hg, hm, hi, Hub.sentEnvelope, Hub.messageArgs]

/-- The run of `Publish` on the recording hub when every step before the Writer succeeds. -/
theorem traced_Publish_ok (clock : σ → String) (h : Hub Ctx σ ι D) (ctx : Ctx)
    (message : GoValue ι D) (s : σ) (log : List (Call Ctx (GoValue ι D)))
    (metadata : StreamMetadata) (schemaDef : String) (s1 : σ) (data : List UInt8) (s2 : σ)
    (id : String) (s3 : σ)
    (hreg : h.StreamRegistry.Get message = Except.ok metadata)
    (hschema : h.schemaStep metadata s = (Except.ok schemaDef, s1))
    (hmarshal : h.Marshaler.Marshal schemaDef message s1 = (Except.ok data, s2))
    (hid : h.IDFactory s2 = (Except.ok id, s3)) :
    h.traced.Publish (tracedClock clock) ctx message (s, log)
      = ((h.PublisherFunc ctx (h.sentEnvelope clock metadata data id s3)
            (h.Marshaler.ContentType s3).2).1,
          ((h.PublisherFunc ctx (h.sentEnvelope clock metadata data id s3)
            (h.Marshaler.ContentType s3).2).2,
            log ++ h.schemaCalls metadata
              ++ [Call.marshal schemaDef message, Call.idFactory, Call.contentType,
                Call.publisherFunc ctx (h.sentEnvelope clock metadata data id s3)])) := by
  have hreg2 : h.traced.StreamRegistry.Get message = Except.ok metadata := hreg
  simp only [Hub.Publish, hreg2]
  rw [traced_publishMessage, hschema]
  simp only [hmarshal, hid]

theorem writerCalls_publish_log (h : Hub Ctx σ ι D) (ctx : Ctx) (metadata : StreamMetadata)
    (message : GoValue ι D) (schemaDef : String) (env : Message (GoValue ι D))
    (log : List (Call Ctx (GoValue ι D))) :
    writerCalls (log ++ h.schemaCalls metadata
      ++ [Call.marshal schemaDef message, Call.idFactory, Call.contentType,
        Call.publisherFunc ctx env]) = writerCalls log ++ [(ctx, env)] := by
  simp [writerCalls_append, writerCalls_schemaCalls, writerCalls]

end PipelineLemmas

/-! ## Facts about the string functions -/

theorem stringsHasPrefix_iff (s pre : String) :
    stringsHasPrefix s pre = true ↔ pre.data <+: s.data := by
  unfold stringsHasPrefix
  rw [List.prefix_iff_eq_take]
  constructor
  · intro hp
    simp only [Bool.and_eq_true, decide_eq_true_eq] at hp
    exact hp.2.symm
  · intro hp
    simp only [Bool.and_eq_true, decide_eq_true_eq]
    refine ⟨?_, hp.symm⟩
    have hlen := congrArg List.length hp
    simp only [List.length_take] at hlen
    omega

theorem stringsHasPrefix_append (a b : String) : stringsHasPrefix (a ++ b) a = true := by
  rw [stringsHasPrefix_iff]
  exact ⟨b.data, by simp⟩

theorem toDigitsCore_ne_nil (b : Nat) :
    ∀ (fuel n : Nat) (ds : List Char), ds ≠ [] → Nat.toDigitsCore b fuel n ds ≠ [] := by
  intro fuel
  induction fuel with
  | zero => intro n ds hds; simpa [Nat.toDigitsCore] using hds
  | succ fuel ih =>
    intro n ds _
    unfold Nat.toDigitsCore
    by_cases hq : n / b = 0
    · simp [hq]
    · simp only [hq, if_false]
      exact ih _ _ (by simp)

theorem toDigits_ne_nil (b n : Nat) : Nat.toDigits b n ≠ [] := by
  unfold Nat.toDigits Nat.toDigitsCore
  by_cases hq : n / b = 0
  · simp [hq]
  · simp only [hq, if_false]
    exact toDigitsCore_ne_nil b _ _ _ (by simp)

theorem strconvItoa_ne_empty (i : Int) : strconvItoa i ≠ "" := by
  intro hi
  have hd := congrArg String.data hi
  cases i with
  | ofNat n => exact toDigits_ne_nil 10 n (by simpa [strconvItoa] using hd)
  | negSucc n => simp [strconvItoa] at hd

theorem generateMessageType_eq (source stream version : String) :
    generateMessageType source stream version =
      (if source ≠ "" ∧ stringsHasPrefix stream source = false then source ++ "." else "")
        ++ stream ++ (if version ≠ "" then ".v" ++ version else "") := by
  unfold generateMessageType
  by_cases hs : source ≠ "" ∧ stringsHasPrefix stream source = false
  · have hs' : source ≠ "" ∧ ¬ stringsHasPrefix stream source = true := ⟨hs.1, by simp [hs.2]⟩
    by_cases hv : version ≠ "" <;> simp [hs, hs', hv, String.append_assoc]
  · have hs' : ¬ (source ≠ "" ∧ ¬ stringsHasPrefix stream source = true) := by
      intro hc
      exact hs ⟨hc.1, by simpa using hc.2⟩
    by_cases hv : version ≠ "" <;> simp [hs, hs', hv, String.append_assoc]

theorem strconvItoa_samples :
    strconvItoa 0 = "0" ∧ strconvItoa 1 = "1" ∧ strconvItoa 120 = "120" ∧
    strconvItoa (-12) = "-12" := by decide

theorem strconvItoa_eq_toString (i : Int) : strconvItoa i = toString i := by
  cases i <;> rfl

theorem generateMessageType_has_source (source stream version : String) :
    source.data <+: (generateMessageType source stream version).data := by
  rw [generateMessageType_eq]
  by_cases hs : source ≠ "" ∧ stringsHasPrefix stream source = false
  · rw [if_pos hs]
    simp only [String.data_append, List.append_assoc]
    exact List.prefix_append _ _
  · rw [if_neg hs]
    simp only [String.data_append]
    have hp : source.data <+: stream.data := by
      by_cases he : source = ""
      · subst he
        exact List.nil_prefix
      · rw [← stringsHasPrefix_iff]
        by_contra hc
        exact hs ⟨he, by simpa using hc⟩
    simpa using hp.trans (List.prefix_append _ _)

/-! ## The claims on the envelope model -/

/-- C1: `generateMessageType source stream version` is `source ++ "."` when `source` is non-empty
and `stream` does not start with `source` (else nothing), then `stream`, then `".v" ++ version`
when `version` is non-empty (else nothing); the three documented examples evaluate as stated. -/
theorem generateMessageType_contract :
    (∀ source stream version : String,
      generateMessageType source stream version =
        (if source ≠ "" ∧ ¬ source.data <+: stream.data then source ++ "." else "")
          ++ stream ++ (if version ≠ "" then ".v" ++ version else "")) ∧
    generateMessageType "ncorp" "ncorp.wallet.tx.registered" "1"
      = "ncorp.wallet.tx.registered.v1" ∧
    generateMessageType "" "topic" "1" = "topic.v1" ∧
    generateMessageType "src" "topic" "" = "src.topic" := by
  refine ⟨?_, by decide, by decide, by decide⟩
  intro source stream version
  rw [generateMessageType_eq]
  have hiff : stringsHasPrefix stream source = false ↔ ¬ source.data <+: stream.data := by
    rw [← stringsHasPrefix_iff]
    simp
  simp only [hiff]

/-- C10: `source` is a prefix of `generateMessageType source stream version`, so deriving again
from the derived type with the empty version returns the derived type unchanged. -/
theorem generateMessageType_idempotent (source stream version : String) :
    source.data <+: (generateMessageType source stream version).data ∧
    stringsHasPrefix (generateMessageType source stream version) source = true ∧
    generateMessageType source (generateMessageType source stream version) ""
      = generateMessageType source stream version := by
  have hp := generateMessageType_has_source source stream version
  have hb := (stringsHasPrefix_iff (generateMessageType source stream version) source).2 hp
  refine ⟨hp, hb, ?_⟩
  rw [generateMessageType_eq source (generateMessageType source stream version) ""]
  simp [hb]

/-- C9: for every `NewMessageArgs` the envelope built by `NewMessage` has
`Type = generateMessageType Source Stream (strconv.Itoa SchemaVersion)`, which is the
suffix-less derivation followed by `".v"` and the decimal rendering of `SchemaVersion`; the
rendering is never empty (`"0"` for 0, `"-"` and the digits for a negative), so the suffix-less
form is never produced; `CorrelationID`, `CausationID` and `DecodedData` are zero values. -/
theorem NewMessage_type_has_version {V : Type} (now : String) (args : NewMessageArgs) :
    (NewMessage now args : Message V).Type_
      = generateMessageType args.Source args.Stream (strconvItoa args.SchemaVersion) ∧
    (NewMessage now args : Message V).Type_
      = generateMessageType args.Source args.Stream "" ++ ".v" ++ strconvItoa args.SchemaVersion ∧
    strconvItoa args.SchemaVersion ≠ "" ∧
    (NewMessage now args : Message V).Type_ ≠ generateMessageType args.Source args.Stream "" ∧
    (NewMessage now args : Message V).CorrelationID = "" ∧
    (NewMessage now args : Message V).CausationID = "" ∧
    (NewMessage now args : Message V).DecodedData = none ∧
    strconvItoa 0 = "0" ∧
    (∀ n : Nat, strconvItoa (-((n : Int) + 1)) = "-" ++ strconvItoa ((n : Int) + 1)) ∧
    (∀ i : Int, strconvItoa i = toString i) := by
  have hne := strconvItoa_ne_empty args.SchemaVersion
  have hty : (NewMessage now args : Message V).Type_
      = generateMessageType args.Source args.Stream "" ++ ".v"
        ++ strconvItoa args.SchemaVersion := by
    simp only [NewMessage]
    rw [generateMessageType_eq, generateMessageType_eq args.Source args.Stream ""]
    simp [hne, String.append_assoc]
  refine ⟨rfl, hty, hne, ?_, rfl, rfl, rfl, by decide, ?_, strconvItoa_eq_toString⟩
  · rw [hty]
    intro hc
    have hd := congrArg String.data hc
    simp at hd
  · intro n
    rw [← Int.negSucc_eq]
    rfl

/-! ## The claims on the publish pipeline -/

section PipelineClaims

variable {Ctx σ ι D : Type}

/-- C2: when the stream registry has no entry for the message's identity, `Publish` returns the
lookup's error, which is `RegistryMissError`, and leaves the world state and the log of
collaborator invocations as they were: neither SchemaRegistry, Marshaler, ID factory nor Writer
is invoked. The same holds for `PublishByMessageKey` and a string key without entry. -/
theorem publish_registry_miss (clock : σ → String) (h : Hub Ctx σ ι D) (ctx : Ctx)
    (message : GoValue ι D) (messageKey : String) (s : σ)
    (log : List (Call Ctx (GoValue ι D))) :
    (h.StreamRegistry.byIdentity message.dynType = none →
      h.StreamRegistry.Get message = Except.error RegistryMissError ∧
      h.traced.Publish (tracedClock clock) ctx message (s, log)
        = (some RegistryMissError, (s, log))) ∧
    (h.StreamRegistry.byString messageKey = none →
      h.StreamRegistry.GetByString messageKey = Except.error RegistryMissError ∧
      h.traced.PublishByMessageKey (tracedClock clock) ctx messageKey message (s, log)
        = (some RegistryMissError, (s, log))) ∧
    (∀ err, h.StreamRegistry.Get message = Except.error err →
      h.traced.Publish (tracedClock clock) ctx message (s, log) = (some err, (s, log))) ∧
    (∀ err, h.StreamRegistry.GetByString messageKey = Except.error err →
      h.traced.PublishByMessageKey (tracedClock clock) ctx messageKey message (s, log)
        = (some err, (s, log))) := by
  refine ⟨?_, ?_, ?_, ?_⟩
  · intro hmiss
    simp [Hub.Publish, Hub.traced, StreamRegistry.Get, hmiss]
  · intro hmiss
    simp [Hub.PublishByMessageKey, Hub.traced, StreamRegistry.GetByString, hmiss]
  · intro err hget
    have hget' : h.traced.StreamRegistry.Get message = Except.error err := hget
    simp [Hub.Publish, hget']
  · intro err hget
    have hget' : h.traced.StreamRegistry.GetByString messageKey = Except.error err := hget
    simp [Hub.PublishByMessageKey, hget']

/-- Witness of C2: a fresh hub has no entry for the benchmark's message type nor for the key
`"wallet"`, and both publish operations return `RegistryMissError` with an empty log. -/
theorem publish_registry_miss_witness :
    ((NewHub sampleBuiltins []).StreamRegistry.byIdentity transactionRegistered.dynType = none ∧
      (NewHub sampleBuiltins []).traced.Publish (tracedClock sampleClock) () transactionRegistered
        (0, []) = (some RegistryMissError, (0, []))) ∧
    ((NewHub sampleBuiltins []).StreamRegistry.byString "wallet" = none ∧
      (NewHub sampleBuiltins []).traced.PublishByMessageKey (tracedClock sampleClock) () "wallet"
        transactionRegistered (0, []) = (some RegistryMissError, (0, []))) :=
  ⟨⟨rfl, ((publish_registry_miss sampleClock (NewHub sampleBuiltins []) () transactionRegistered
      "wallet" 0 []).1 rfl).2⟩,
    ⟨rfl, ((publish_registry_miss sampleClock (NewHub sampleBuiltins []) () transactionRegistered
      "wallet" 0 []).2.1 rfl).2⟩⟩

/-- C3: the publish pipeline runs metadata lookup, schema lookup (only with a SchemaRegistry
configured), marshal, ID generation, Writer, in this order, and stops at the first failure: the
error returned is the failing step's own error and the log ends with the failing step's
invocation; when every earlier step succeeds the result is the Writer's result. -/
theorem publish_short_circuit (clock : σ → String) (h : Hub Ctx σ ι D) (ctx : Ctx)
    (metadata : StreamMetadata) (message : GoValue ι D) (messageKey : String) (s : σ)
    (log : List (Call Ctx (GoValue ι D))) :
    (∀ err, h.StreamRegistry.Get message = Except.error err →
      h.traced.Publish (tracedClock clock) ctx message (s, log) = (some err, (s, log))) ∧
    (∀ err, h.StreamRegistry.GetByString messageKey = Except.error err →
      h.traced.PublishByMessageKey (tracedClock clock) ctx messageKey message (s, log)
        = (some err, (s, log))) ∧
    (h.StreamRegistry.Get message = Except.ok metadata →
      h.traced.Publish (tracedClock clock) ctx message (s, log)
        = h.traced.publishMessage (tracedClock clock) ctx metadata message (s, log)) ∧
    (h.StreamRegistry.GetByString messageKey = Except.ok metadata →
      h.traced.PublishByMessageKey (tracedClock clock) ctx messageKey message (s, log)
        = h.traced.publishMessage (tracedClock clock) ctx metadata message (s, log)) ∧
    (h.SchemaRegistry = none →
      h.schemaStep metadata s = (Except.ok "", s) ∧ h.schemaCalls metadata = []) ∧
    (∀ registry, h.SchemaRegistry = some registry →
      h.schemaStep metadata s = registry.GetSchemaDefinition metadata.SchemaDefinitionName
        metadata.SchemaVersion s ∧
      h.schemaCalls metadata
        = [Call.getSchemaDefinition metadata.SchemaDefinitionName metadata.SchemaVersion]) ∧
    (∀ err s1, h.schemaStep metadata s = (Except.error err, s1) →
      h.traced.publishMessage (tracedClock clock) ctx metadata message (s, log)
        = (some err, (s1, log ++ h.schemaCalls metadata))) ∧
    (∀ schemaDef s1 err s2, h.schemaStep metadata s = (Except.ok schemaDef, s1) →
      h.Marshaler.Marshal schemaDef message s1 = (Except.error err, s2) →
      h.traced.publishMessage (tracedClock clock) ctx metadata message (s, log)
        = (some err, (s2, log ++ h.schemaCalls metadata ++ [Call.marshal schemaDef message]))) ∧
    (∀ schemaDef s1 data s2 err s3, h.schemaStep metadata s = (Except.ok schemaDef, s1) →
      h.Marshaler.Marshal schemaDef message s1 = (Except.ok data, s2) →
      h.IDFactory s2 = (Except.error err, s3) →
      h.traced.publishMessage (tracedClock clock) ctx metadata message (s, log)
        = (some err, (s3, log ++ h.schemaCalls metadata
            ++ [Call.marshal schemaDef message, Call.idFactory]))) ∧
    (∀ schemaDef s1 data s2 id s3, h.schemaStep metadata s = (Except.ok schemaDef, s1) →
      h.Marshaler.Marshal schemaDef message s1 = (Except.ok data, s2) →
      h.IDFactory s2 = (Except.ok id, s3) →
      h.traced.publishMessage (tracedClock clock) ctx metadata message (s, log)
        = ((h.PublisherFunc ctx (h.sentEnvelope clock metadata data id s3)
              (h.Marshaler.ContentType s3).2).1,
            ((h.PublisherFunc ctx (h.sentEnvelope clock metadata data id s3)
              (h.Marshaler.ContentType s3).2).2,
              log ++ h.schemaCalls metadata
                ++ [Call.marshal schemaDef message, Call.idFactory, Call.contentType,
                  Call.publisherFunc ctx (h.sentEnvelope clock metadata data id s3)]))) := by
  refine ⟨?_, ?_, ?_, ?_, ?_, ?_, ?_, ?_, ?_, ?_⟩
  · intro err hget
    have hget' : h.traced.StreamRegistry.Get message = Except.error err := hget
    simp [Hub.Publish, hget']
  · intro err hget
    have hget' : h.traced.StreamRegistry.GetByString messageKey = Except.error err := hget
    simp [Hub.PublishByMessageKey, hget']
  · intro hget
    have hget' : h.traced.StreamRegistry.Get message = Except.ok metadata := hget
    simp [Hub.Publish, hget']
  · intro hget
    have hget' : h.traced.StreamRegistry.GetByString messageKey = Except.ok metadata := hget
    simp [Hub.PublishByMessageKey, hget']
  · intro hnone
    simp [Hub.schemaStep, Hub.schemaCalls, hnone]
  · intro registry hsome
    simp [Hub.schemaStep, Hub.schemaCalls, hsome]
  · intro err s1 hschema
    rw [traced_publishMessage, hschema]
  · intro schemaDef s1 err s2 hschema hmarshal
    rw [traced_publishMessage, hschema]
    simp only [hmarshal]
  · intro schemaDef s1 data s2 err s3 hschema hmarshal hid
    rw [traced_publishMessage, hschema]
    simp only [hmarshal, hid]
  · intro schemaDef s1 data s2 id s3 hschema hmarshal hid
    rw [traced_publishMessage, hschema]
    simp only [hmarshal, hid]

/-- Witness of C3: a schema lookup that fails, a Marshaler that fails, an ID factory that fails
and a run in which every step succeeds, each on a concrete hub. -/
theorem publish_short_circuit_witness :
    (benchmarkHub.schemaStep ⟨"ncorp.wallet", "unknown", 1⟩ 0
        = (Except.error ⟨"schema not found"⟩, 0) ∧
      benchmarkHub.traced.publishMessage (tracedClock sampleClock) () ⟨"ncorp.wallet", "unknown", 1⟩
        transactionRegistered (0, [])
        = (some ⟨"schema not found"⟩, (0, [Call.getSchemaDefinition "unknown" 1]))) ∧
    ((NewHub sampleBuiltins [WithMarshaler failingMarshaler]).traced.publishMessage
        (tracedClock sampleClock) () walletMetadata transactionRegistered (0, [])
        = (some ⟨"marshal failed"⟩, (0, [Call.marshal "" transactionRegistered]))) ∧
    ((NewHub sampleBuiltins [WithIDFactory failingIdFactory]).traced.publishMessage
        (tracedClock sampleClock) () walletMetadata transactionRegistered (0, [])
        = (some ⟨"no id"⟩, (0, [Call.marshal "" transactionRegistered, Call.idFactory]))) ∧
    (benchmarkHub.traced.publishMessage (tracedClock sampleClock) () walletMetadata
        transactionRegistered (0, [])
        = (none, (1, [Call.getSchemaDefinition "wallet-tx-registered" 1,
            Call.marshal "record" transactionRegistered, Call.idFactory, Call.contentType,
            Call.publisherFunc () (benchmarkHub.sentEnvelope sampleClock walletMetadata
              [123, 125] "id-0" 1)]))) :=
  ⟨⟨rfl, (publish_short_circuit sampleClock benchmarkHub () ⟨"ncorp.wallet", "unknown", 1⟩
      transactionRegistered "wallet" 0 []).2.2.2.2.2.2.1 ⟨"schema not found"⟩ 0 rfl⟩,
    (publish_short_circuit sampleClock (NewHub sampleBuiltins [WithMarshaler failingMarshaler]) ()
      walletMetadata transactionRegistered "wallet" 0 []).2.2.2.2.2.2.2.1
      "" 0 ⟨"marshal failed"⟩ 0 rfl rfl,
    (publish_short_circuit sampleClock (NewHub sampleBuiltins [WithIDFactory failingIdFactory]) ()
      walletMetadata transactionRegistered "wallet" 0 []).2.2.2.2.2.2.2.2.1
      "" 0 [123, 125] 0 ⟨"no id"⟩ 0 rfl rfl rfl,
    (publish_short_circuit sampleClock benchmarkHub () walletMetadata transactionRegistered
      "wallet" 0 []).2.2.2.2.2.2.2.2.2 "record" 0 [123, 125] 0 "id-0" 1 rfl rfl rfl⟩

/-- C4: for a registered message for which schema lookup, marshalling and ID generation succeed,
`Publish` invokes the Writer exactly once, after the other collaborators, and returns the
Writer's result; the envelope handed over has the ID of the ID factory, the hub's instance name
as source, the metadata's stream, the Marshaler's bytes (marshalled with the schema text of the
SchemaRegistry, the empty text without one) and content type, the metadata's schema definition
name and version, spec version `"1.0"` and the derived type. -/
theorem publish_envelope (clock : σ → String) (h : Hub Ctx σ ι D) (ctx : Ctx)
    (message : GoValue ι D) (s : σ) (log : List (Call Ctx (GoValue ι D)))
    (metadata : StreamMetadata) (schemaDef : String) (s1 : σ) (data : List UInt8) (s2 : σ)
    (id : String) (s3 : σ)
    (hreg : h.StreamRegistry.Get message = Except.ok metadata)
    (hschema : h.schemaStep metadata s = (Except.ok schemaDef, s1))
    (hmarshal : h.Marshaler.Marshal schemaDef message s1 = (Except.ok data, s2))
    (hid : h.IDFactory s2 = (Except.ok id, s3)) :
    ∃ env : Message (GoValue ι D),
      h.traced.Publish (tracedClock clock) ctx message (s, log)
        = ((h.PublisherFunc ctx env (h.Marshaler.ContentType s3).2).1,
            ((h.PublisherFunc ctx env (h.Marshaler.ContentType s3).2).2,
              log ++ h.schemaCalls metadata
                ++ [Call.marshal schemaDef message, Call.idFactory, Call.contentType,
                  Call.publisherFunc ctx env])) ∧
      writerCalls (h.traced.Publish (tracedClock clock) ctx message (s, log)).2.2
        = writerCalls log ++ [(ctx, env)] ∧
      (h.SchemaRegistry = none → schemaDef = "") ∧
      (∀ registry, h.SchemaRegistry = some registry →
        (registry.GetSchemaDefinition metadata.SchemaDefinitionName metadata.SchemaVersion s).1
          = Except.ok schemaDef) ∧
      env.ID = id ∧
      env.Source = h.InstanceName ∧
      env.Stream = metadata.Stream ∧
      env.Data = data ∧
      env.DataContentType = (h.Marshaler.ContentType s3).1 ∧
      env.DataSchema = metadata.SchemaDefinitionName ∧
      env.DataSchemaVersion = metadata.SchemaVersion ∧
      env.SpecVersion = "1.0" ∧
      env.Type_ = generateMessageType h.InstanceName metadata.Stream
        (strconvItoa metadata.SchemaVersion) := by
  have hrun := traced_Publish_ok clock h ctx message s log metadata schemaDef s1 data s2 id s3
    hreg hschema hmarshal hid
  refine ⟨h.sentEnvelope clock metadata data id s3, hrun, ?_, ?_, ?_,
    rfl, rfl, rfl, rfl, rfl, rfl, rfl, rfl, rfl⟩
  · rw [hrun]
    exact writerCalls_publish_log h ctx metadata message schemaDef _ log
  · intro hnone
    simp only [Hub.schemaStep, hnone, Prod.mk.injEq, Except.ok.injEq] at hschema
    exact hschema.1.symm
  · intro registry hsome
    simp only [Hub.schemaStep, hsome] at hschema
    rw [hschema]

/-- Witness of C4: the benchmark's hub publishing the benchmark's value. -/
theorem publish_envelope_witness :
    benchmarkHub.StreamRegistry.Get transactionRegistered = Except.ok walletMetadata ∧
    ∃ env : Message (GoValue String String),
      writerCalls (benchmarkHub.traced.Publish (tracedClock sampleClock) () transactionRegistered
        (0, [])).2.2 = [((), env)] ∧
      env.ID = "id-0" ∧ env.Data = [123, 125] ∧ env.DataSchema = "wallet-tx-registered" :=
  ⟨rfl,
    (publish_envelope sampleClock benchmarkHub () transactionRegistered 0 [] walletMetadata
      "record" 0 [123, 125] 0 "id-0" 1 rfl rfl rfl rfl).elim
      fun env henv => ⟨env, henv.2.1, henv.2.2.2.2.1, henv.2.2.2.2.2.2.2.1,
        henv.2.2.2.2.2.2.2.2.2.1⟩⟩

/-- C6: `PublishRawMessage` hands the caller's envelope to the Writer as it is, once, and
returns the Writer's result; nothing else is invoked, and the result does not depend on the
stream registry, the SchemaRegistry, the Marshaler or the ID factory of the hub. -/
theorem publishRawMessage_passthrough (h : Hub Ctx σ ι D) (ctx : Ctx)
    (m : Message (GoValue ι D)) (s : σ) (log : List (Call Ctx (GoValue ι D))) :
    h.PublishRawMessage ctx m s = h.PublisherFunc ctx m s ∧
    h.traced.PublishRawMessage ctx m (s, log)
      = ((h.PublisherFunc ctx m s).1,
          ((h.PublisherFunc ctx m s).2, log ++ [Call.publisherFunc ctx m])) ∧
    writerCalls (h.traced.PublishRawMessage ctx m (s, log)).2.2 = writerCalls log ++ [(ctx, m)] ∧
    (∀ h2 : Hub Ctx σ ι D, h2.PublisherFunc = h.PublisherFunc →
      h2.traced.PublishRawMessage ctx m (s, log) = h.traced.PublishRawMessage ctx m (s, log)) ∧
    ((h.PublisherFunc ctx m s).1 = none →
      ({ h with StreamRegistry := StreamRegistry.empty } : Hub Ctx σ ι D).StreamRegistry.GetByString
          m.Stream = Except.error RegistryMissError ∧
      (({ h with StreamRegistry := StreamRegistry.empty } : Hub Ctx σ ι D).PublishRawMessage
          ctx m s).1 = none) := by
  refine ⟨rfl, rfl, ?_, ?_, ?_⟩
  · simp [Hub.PublishRawMessage, Hub.traced, writerCalls_append, writerCalls]
  · intro h2 heq
    simp [Hub.PublishRawMessage, Hub.traced, heq]
  · intro hok
    exact ⟨rfl, hok⟩

/-- Counterexample to C5 as stated: on the benchmark's hub, whose instance name is the default,
publishing the benchmark's value succeeds and the Writer receives one envelope, whose type is
`"com.streamhub.ncorp.wallet.tx.registered.v1"`, not `"ncorp.wallet.tx.registered.v1"`. -/
theorem benchmark_publish_type_counterexample :
    benchmarkHub.InstanceName = DefaultHubInstanceName ∧
    (benchmarkHub.traced.Publish (tracedClock sampleClock) () transactionRegistered (0, [])).1
      = none ∧
    ∃ env : Message (GoValue String String),
      writerCalls (benchmarkHub.traced.Publish (tracedClock sampleClock) () transactionRegistered
        (0, [])).2.2 = [((), env)] ∧
      env.Type_ = "com.streamhub.ncorp.wallet.tx.registered.v1" ∧
      env.Type_ ≠ "ncorp.wallet.tx.registered.v1" :=
  ⟨rfl, rfl, benchmarkHub.sentEnvelope sampleClock walletMetadata [123, 125] "id-0" 1, rfl, rfl,
    by decide⟩

/-- C5, amended: on a hub made by `NewHub` whose instance name is the default, after registering
a message type with stream `"ncorp.wallet.tx.registered"` and schema version 1, a publish of a
value of that type that reaches the Writer hands it exactly one envelope, with type
`"com.streamhub.ncorp.wallet.tx.registered.v1"`, spec version `"1.0"` and schema version 1. -/
theorem publish_end_to_end [DecidableEq ι] (clock : σ → String) (b : Builtins Ctx σ ι D)
    (opts : List (HubOption Ctx σ ι D)) (registered message : GoValue ι D)
    (schemaName : String) (ctx : Ctx) (s : σ) (schemaDef : String) (s1 : σ)
    (data : List UInt8) (s2 : σ) (id : String) (s3 : σ)
    (hname : (NewHub b opts).InstanceName = DefaultHubInstanceName)
    (htype : message.dynType = registered.dynType)
    (hschema : ((NewHub b opts).RegisterStream registered
        ⟨"ncorp.wallet.tx.registered", schemaName, 1⟩).schemaStep
        ⟨"ncorp.wallet.tx.registered", schemaName, 1⟩ s = (Except.ok schemaDef, s1))
    (hmarshal : (NewHub b opts).Marshaler.Marshal schemaDef message s1 = (Except.ok data, s2))
    (hid : (NewHub b opts).IDFactory s2 = (Except.ok id, s3)) :
    ∃ env : Message (GoValue ι D),
      writerCalls (((NewHub b opts).RegisterStream registered
        ⟨"ncorp.wallet.tx.registered", schemaName, 1⟩).traced.Publish (tracedClock clock) ctx
          message (s, [])).2.2 = [(ctx, env)] ∧
      env.Type_ = "com.streamhub.ncorp.wallet.tx.registered.v1" ∧
      env.SpecVersion = "1.0" ∧
      env.DataSchemaVersion = 1 := by
  have hreg : ((NewHub b opts).RegisterStream registered
      ⟨"ncorp.wallet.tx.registered", schemaName, 1⟩).StreamRegistry.Get message
      = Except.ok ⟨"ncorp.wallet.tx.registered", schemaName, 1⟩ := by
    simp [Hub.RegisterStream, StreamRegistry.Set, StreamRegistry.Get, htype]
  have hrun := traced_Publish_ok clock ((NewHub b opts).RegisterStream registered
    ⟨"ncorp.wallet.tx.registered", schemaName, 1⟩) ctx message s []
    ⟨"ncorp.wallet.tx.registered", schemaName, 1⟩ schemaDef s1 data s2 id s3 hreg hschema
    hmarshal hid
  refine ⟨((NewHub b opts).RegisterStream registered
    ⟨"ncorp.wallet.tx.registered", schemaName, 1⟩).sentEnvelope clock
    ⟨"ncorp.wallet.tx.registered", schemaName, 1⟩ data id s3, ?_, ?_, rfl, rfl⟩
  · rw [hrun]
    exact writerCalls_publish_log _ ctx _ message schemaDef _ []
  · have hsrc : ((NewHub b opts).RegisterStream registered
        ⟨"ncorp.wallet.tx.registered", schemaName, 1⟩).InstanceName = "com.streamhub" := hname
    simp only [Hub.sentEnvelope, NewMessage, Hub.messageArgs, hsrc]
    decide

/-- Witness of C5, amended: the benchmark's hub and value. -/
theorem publish_end_to_end_witness :
    (NewHub sampleBuiltins [WithSchemaRegistry sampleSchemaRegistry,
      WithMarshaler sampleMarshaler, WithWriter sampleWriter]).InstanceName
      = DefaultHubInstanceName ∧
    transactionRegistered.dynType = transactionRegisteredZero.dynType ∧
    ∃ env : Message (GoValue String String),
      writerCalls (benchmarkHub.traced.Publish (tracedClock sampleClock) ()
          transactionRegistered (0, [])).2.2 = [((), env)] ∧
      env.Type_ = "com.streamhub.ncorp.wallet.tx.registered.v1" ∧
      env.SpecVersion = "1.0" ∧
      env.DataSchemaVersion = 1 :=
  ⟨rfl, rfl,
    publish_end_to_end sampleClock sampleBuiltins
      [WithSchemaRegistry sampleSchemaRegistry, WithMarshaler sampleMarshaler,
        WithWriter sampleWriter]
      transactionRegisteredZero transactionRegistered "wallet-tx-registered" () 0 "record" 0
      [123, 125] 0 "id-0" 1 rfl rfl rfl rfl rfl⟩

end PipelineClaims

/-! ## The claims on the listener supervisor -/

section SupervisorClaims

variable {H Drv Fn : Type}

theorem forkNode_empty (sv : listenerSupervisor H Drv Fn)
    (opts : List (ListenerNodeOption Drv Fn)) : sv.forkNode "" opts = sv := by
  simp [listenerSupervisor.forkNode]

theorem forkNode_registry (sv : listenerSupervisor H Drv Fn) (stream : String)
    (opts : List (ListenerNodeOption Drv Fn)) (hs : stream ≠ "") :
    (sv.forkNode stream opts).listenerRegistry = sv.listenerRegistry ++
      [newListenerNode stream (opts.foldl (fun nodeOpts o => o nodeOpts) sv.baseOpts)] := by
  simp [listenerSupervisor.forkNode, hs]

theorem forkNode_baseOpts (sv : listenerSupervisor H Drv Fn) (stream : String)
    (opts : List (ListenerNodeOption Drv Fn)) : (sv.forkNode stream opts).baseOpts = sv.baseOpts := by
  unfold listenerSupervisor.forkNode
  split <;> rfl

/-- C7: `forkNode` with the empty stream key leaves the supervisor, so its node registry, as it
was; with a non-empty key and no options it adds exactly one node, at the end, whose concurrency
level, retry intervals, retry timeout and group are the supervisor's configured values: the
`Default*` constants for a supervisor built without options, and the given group for one built
with `WithGroup`. -/
theorem forkNode_defaults (c : ListenerDefaults) (h : H) (sv : listenerSupervisor H Drv Fn)
    (stream g : String) (opts : List (ListenerNodeOption Drv Fn)) :
    (sv.forkNode "" opts).listenerRegistry = sv.listenerRegistry ∧
    (sv.forkNode "" opts).listenerRegistry.length = sv.listenerRegistry.length ∧
    (stream ≠ "" →
      (sv.forkNode stream []).listenerRegistry.length = sv.listenerRegistry.length + 1 ∧
      ∃ node : ListenerNode Drv Fn,
        (sv.forkNode stream []).listenerRegistry = sv.listenerRegistry ++ [node] ∧
        node.Stream = stream ∧
        node.ConcurrencyLevel = sv.baseOpts.concurrencyLevel ∧
        node.RetryInitialInterval = sv.baseOpts.retryInitialInterval ∧
        node.RetryMaxInterval = sv.baseOpts.retryMaxInterval ∧
        node.RetryTimeout = sv.baseOpts.retryTimeout ∧
        node.Group = sv.baseOpts.group) ∧
    ((newListenerSupervisor c h ([] : List (ListenerNodeOption Drv Fn))).baseOpts.concurrencyLevel
        = c.DefaultConcurrencyLevel ∧
      (newListenerSupervisor c h ([] : List (ListenerNodeOption Drv Fn))).baseOpts.retryInitialInterval
        = c.DefaultRetryInitialInterval ∧
      (newListenerSupervisor c h ([] : List (ListenerNodeOption Drv Fn))).baseOpts.retryMaxInterval
        = c.DefaultRetryMaxInterval ∧
      (newListenerSupervisor c h ([] : List (ListenerNodeOption Drv Fn))).baseOpts.retryTimeout
        = c.DefaultRetryTimeout ∧
      (newListenerSupervisor c h ([] : List (ListenerNodeOption Drv Fn))).baseOpts.group
        = c.DefaultGroup) ∧
    ((newListenerSupervisor c h [(WithGroup g : ListenerNodeOption Drv Fn)]).baseOpts.group = g ∧
      (newListenerSupervisor c h [(WithGroup g : ListenerNodeOption Drv Fn)]).baseOpts.concurrencyLevel
        = c.DefaultConcurrencyLevel ∧
      (newListenerSupervisor c h
        [(WithGroup g : ListenerNodeOption Drv Fn)]).baseOpts.retryInitialInterval
        = c.DefaultRetryInitialInterval ∧
      (newListenerSupervisor c h [(WithGroup g : ListenerNodeOption Drv Fn)]).baseOpts.retryMaxInterval
        = c.DefaultRetryMaxInterval ∧
      (newListenerSupervisor c h [(WithGroup g : ListenerNodeOption Drv Fn)]).baseOpts.retryTimeout
        = c.DefaultRetryTimeout) := by
  refine ⟨by rw [forkNode_empty], by rw [forkNode_empty], ?_,
    ⟨rfl, rfl, rfl, rfl, rfl⟩, ⟨rfl, rfl, rfl, rfl, rfl⟩⟩
  intro hs
  have hreg := forkNode_registry sv stream [] hs
  exact ⟨by rw [hreg]; simp, newListenerNode stream sv.baseOpts, hreg, rfl, rfl, rfl, rfl, rfl,
    rfl⟩

/-- Witness of C7: the first steps of `TestListenerSupervisor_Append`. -/
theorem forkNode_defaults_witness :
    (testSupervisor.forkNode "" []).listenerRegistry.length = 0 ∧
    ("foo" ≠ "" ∧
      ((testSupervisor.forkNode "" []).forkNode "foo" []).listenerRegistry.length = 0 + 1 ∧
      ((testSupervisor.forkNode "" []).forkNode "foo" []).listenerRegistry
        = [{ Stream := "foo"
             Group := "bar-queue"
             ConcurrencyLevel := sampleDefaults.DefaultConcurrencyLevel
             RetryInitialInterval := sampleDefaults.DefaultRetryInitialInterval
             RetryMaxInterval := sampleDefaults.DefaultRetryMaxInterval
             RetryTimeout := sampleDefaults.DefaultRetryTimeout
             Driver := none
             ListenerFunc := none }]) :=
  ⟨(forkNode_defaults sampleDefaults () testSupervisor "foo" "bar-queue" []).2.1,
    by decide,
    ((forkNode_defaults sampleDefaults () (testSupervisor.forkNode "" []) "foo" "bar-queue"
      []).2.2.1 (by decide)).1,
    by decide⟩

/-- C8: for a non-empty stream key, `forkNode` with a per-call option appends one node built
from the supervisor's configuration with the option applied: with `WithGroup g` the node's group
is `g` and its other settings are the supervisor's, likewise for `WithConcurrencyLevel n`. The
nodes registered before and the supervisor's own configuration stay as they were, so the node of
a later `forkNode` without options has the supervisor's group again. -/
theorem forkNode_override (sv : listenerSupervisor H Drv Fn) (stream stream2 g : String)
    (n : Int) (o : ListenerNodeOption Drv Fn) (hs : stream ≠ "") (hs2 : stream2 ≠ "") :
    (∃ node : ListenerNode Drv Fn,
      (sv.forkNode stream [WithGroup g]).listenerRegistry = sv.listenerRegistry ++ [node] ∧
      node.Stream = stream ∧
      node.Group = g ∧
      node.ConcurrencyLevel = sv.baseOpts.concurrencyLevel ∧
      node.RetryInitialInterval = sv.baseOpts.retryInitialInterval ∧
      node.RetryMaxInterval = sv.baseOpts.retryMaxInterval ∧
      node.RetryTimeout = sv.baseOpts.retryTimeout ∧
      node.Driver = sv.baseOpts.driver ∧
      node.ListenerFunc = sv.baseOpts.listenerFunc ∧
      ∃ node2 : ListenerNode Drv Fn,
        ((sv.forkNode stream [WithGroup g]).forkNode stream2 []).listenerRegistry
          = sv.listenerRegistry ++ [node, node2] ∧
        node2.Stream = stream2 ∧
        node2.Group = sv.baseOpts.group) ∧
    (∃ node : ListenerNode Drv Fn,
      (sv.forkNode stream [WithConcurrencyLevel n]).listenerRegistry
        = sv.listenerRegistry ++ [node] ∧
      node.ConcurrencyLevel = n ∧
      node.Group = sv.baseOpts.group ∧
      node.RetryInitialInterval = sv.baseOpts.retryInitialInterval ∧
      node.RetryMaxInterval = sv.baseOpts.retryMaxInterval ∧
      node.RetryTimeout = sv.baseOpts.retryTimeout) ∧
    (∃ node : ListenerNode Drv Fn,
      (sv.forkNode stream [o]).listenerRegistry = sv.listenerRegistry ++ [node] ∧
      node.Group = (o sv.baseOpts).group ∧
      node.ConcurrencyLevel = (o sv.baseOpts).concurrencyLevel ∧
      node.RetryInitialInterval = (o sv.baseOpts).retryInitialInterval ∧
      node.RetryMaxInterval = (o sv.baseOpts).retryMaxInterval ∧
      node.RetryTimeout = (o sv.baseOpts).retryTimeout) ∧
    (sv.forkNode stream [o]).baseOpts = sv.baseOpts ∧
    (sv.forkNode stream [o]).listenerRegistry.length = sv.listenerRegistry.length + 1 ∧
    (∀ i, i < sv.listenerRegistry.length →
      (sv.forkNode stream [o]).listenerRegistry[i]? = sv.listenerRegistry[i]?) := by
  refine ⟨⟨newListenerNode stream (WithGroup g sv.baseOpts),
      forkNode_registry sv stream [WithGroup g] hs, rfl, rfl, rfl, rfl, rfl, rfl, rfl,
      rfl, newListenerNode stream2 sv.baseOpts, ?_, rfl, rfl⟩,
    ⟨newListenerNode stream (WithConcurrencyLevel n sv.baseOpts),
      forkNode_registry sv stream [WithConcurrencyLevel n] hs, rfl, rfl, rfl, rfl, rfl⟩,
    ⟨newListenerNode stream (o sv.baseOpts), forkNode_registry sv stream [o] hs,
      rfl, rfl, rfl, rfl, rfl⟩,
    forkNode_baseOpts sv stream [o], ?_, ?_⟩
  · rw [forkNode_registry _ stream2 [] hs2, forkNode_registry sv stream [WithGroup g] hs,
      forkNode_baseOpts]
    simp
  · rw [forkNode_registry sv stream [o] hs]
    simp
  · intro i hi
    rw [forkNode_registry sv stream [o] hs]
    exact List.getElem?_append_left hi

/-- Witness of C8: `TestListenerSupervisor_Append` in full; the third node has the per-call
group, the first two and a fourth one have the supervisor's. -/
theorem forkNode_override_witness :
    "foobar" ≠ "" ∧ "qux" ≠ "" ∧
    ((((testSupervisor.forkNode "foo" []).forkNode "baz" []).forkNode "foobar"
        [WithGroup "barbaz-queue"]).forkNode "qux" []).listenerRegistry.map
          (fun node => (node.Stream, node.Group))
      = [("foo", "bar-queue"), ("baz", "bar-queue"), ("foobar", "barbaz-queue"),
          ("qux", "bar-queue")] :=
  ⟨by decide, by decide,
    (forkNode_override ((testSupervisor.forkNode "foo" []).forkNode "baz" []) "foobar" "qux"
      "barbaz-queue" 4 (WithGroup "barbaz-queue") (by decide) (by decide)).1.elim
      fun node hnode => hnode.2.2.2.2.2.2.2.2.2.elim fun node2 hnode2 => by
        rw [hnode2.1]
        have h1 := hnode.2.1
        have h2 := hnode.2.2.1
        have h3 := hnode2.2.1
        have h4 := hnode2.2.2
        simp only [List.map_append, List.map_cons, List.map_nil, h1, h2, h3, h4]
        decide⟩

end SupervisorClaims

end Streamhub
